import Mathlib

/-!
Verification development for the TraderBot decision core.

Shallow embedding of the Python sources `fee_calculator.py`, `trade_logic.py`,
`exchange.py` and the RSI computation of `performance.py`.

Modelling conventions:
* Python floats are modelled as `ℚ` (all operations used are field operations);
  the IEEE special values that the RSI pipeline can produce (`inf` / `nan`)
  are modelled explicitly by the inductive type `FloatVal`.
* A Python `dict` of holdings is modelled by `Dict`: a list of keys (insertion
  order, no duplicates in every reachable state) together with a total value
  function.  A lookup of an absent key (Python `KeyError`) is `none`.
* Fallible code is modelled with `Option` / explicit failure results.  The
  `try/except` wrapper of `TradeLogic.execute_trade` returns `(False, 0, None)`
  on any exception, so every exception point in the embedding returns a
  failure triple carrying the state as mutated so far (Python mutations that
  happened before the exception persist).
* `datetime.now().date()` is modelled by an explicit `today : ℕ` parameter;
  dates are natural numbers.
* The exchange collaborator (`self.exchange`) is modelled by explicit function
  parameters; `None` results (exceptions inside `ExchangeHandler`) are `none`.
-/

/-- Outcome of an `ExchangeHandler.execute_buy` / `execute_sell` call:
either a real ccxt order was placed or the simulation stub dict was returned. -/
inductive OrderOutcome
  | real
  | simulation
deriving DecidableEq

/-- `ExchangeHandler.execute_buy` (exchange.py lines 80-92).
`create_market_buy_order` is the underlying ccxt call; `none` models an
exception (caught by the `try`, returning `None`) or a falsy result.
In the Python source the `simulate` parameter has default value `True`. -/
def ExchangeHandler.execute_buy (create_market_buy_order : String → ℚ → Option Unit)
    (coin : String) (amount : ℚ) (simulate : Bool) : Option OrderOutcome :=
  if simulate = false then
    (create_market_buy_order coin amount).map (fun _ => OrderOutcome.real)
  else
    some OrderOutcome.simulation

/-- `ExchangeHandler.execute_sell` (exchange.py lines 94-106); the `simulate`
parameter has default value `True` in the Python source. -/
def ExchangeHandler.execute_sell (create_market_sell_order : String → ℚ → Option Unit)
    (coin : String) (amount : ℚ) (simulate : Bool) : Option OrderOutcome :=
  if simulate = false then
    (create_market_sell_order coin amount).map (fun _ => OrderOutcome.real)
  else
    some OrderOutcome.simulation

/-- Fee configuration of `FeeCalculator.__init__` (fee_calculator.py lines 6-26). -/
structure FeeCalculator where
  maker_fee : ℚ
  taker_fee : ℚ
  fee_discount : ℚ

/-- `self.standard_fee = self.effective_taker_fee = taker_fee * (1 - fee_discount)`
(fee_calculator.py lines 17-20). -/
def FeeCalculator.standard_fee (fc : FeeCalculator) : ℚ :=
  fc.taker_fee * (1 - fc.fee_discount)

/-- `FeeCalculator.calculate_buy_fee` (fee_calculator.py lines 28-30). -/
def FeeCalculator.calculate_buy_fee (fc : FeeCalculator) (amount : ℚ) : ℚ :=
  amount * fc.standard_fee

/-- `FeeCalculator.calculate_sell_fee` (fee_calculator.py lines 32-34). -/
def FeeCalculator.calculate_sell_fee (fc : FeeCalculator) (amount : ℚ) : ℚ :=
  amount * fc.standard_fee

/-- `FeeCalculator.calculate_fee_adjusted_return` (fee_calculator.py lines 40-70).
`performance_data` is the performance dict restricted to the score field,
which is the only field this function reads; a missing key (Python `KeyError`,
uncaught here) is `none`.  Each branch produces the pair
`(expected_return, fee_impact)` and the result is their difference. -/
def FeeCalculator.calculate_fee_adjusted_return (fc : FeeCalculator)
    (from_coin to_coin : String) (performance_data : List (String × ℚ))
    (base_currency : String) : Option ℚ :=
  (if from_coin = base_currency then
    (performance_data.lookup to_coin).map (fun score => (score / 100, fc.standard_fee))
  else if to_coin = base_currency then
    (performance_data.lookup from_coin).map
      (fun score => ((if score < 0 then -score / 100 else 0), fc.standard_fee))
  else
    (performance_data.lookup from_coin).bind (fun from_score =>
      (performance_data.lookup to_coin).map (fun to_score =>
        ((to_score - from_score) / 100, fc.standard_fee * 2)))).map
    (fun r => r.1 - r.2)

/-- A Python `dict` mapping coin symbols to quantities: key list in insertion
order plus a total backing function (only keys in `keys` are present). -/
structure Dict where
  keys : List String
  val : String → ℚ

/-- Dict read `h[k]`; `none` models a `KeyError`. -/
def Dict.get (h : Dict) (k : String) : Option ℚ :=
  if k ∈ h.keys then some (h.val k) else none

/-- Dict write `h[k] = v`: overwrites an existing key, appends a fresh one. -/
def Dict.set (h : Dict) (k : String) (v : ℚ) : Dict :=
  ⟨if k ∈ h.keys then h.keys else h.keys ++ [k],
   fun c => if c = k then v else h.val c⟩

/-- The fields of the trade record dict assembled by `execute_trade`
(trade_logic.py lines 132-137 and the per-branch `update` calls).  The
metadata that no claim consults (timestamp, prices, traded amounts) is
elided. -/
structure TradeRecord where
  trade_type : String
  sell_coin : String
  buy_coin : String
  expected_return : ℚ
  fee : ℚ
  simulated : Bool

/-- The configuration keys consumed by `TradeLogic` (config.py / trade_logic.py
lines 15-18 and 51). -/
structure Config where
  base_currency : String
  trade_amount : ℚ
  min_profit_threshold : ℚ
  max_trades_per_day : ℕ

/-- The mutable attributes of a `TradeLogic` instance (trade_logic.py lines
20-28) together with the trade history held by the `DataManager`
(`data_manager.add_trade` appends to it). -/
structure TLState where
  holdings : Dict
  total_fees_paid : ℚ
  trades_executed : ℕ
  daily_trade_count : ℕ
  last_trade_day : Option ℕ
  history : List TradeRecord

/-- `TradeLogic.reset_daily_trade_count` (trade_logic.py lines 32-39):
returns the mutated state and the Python boolean result. -/
def reset_daily_trade_count (today : ℕ) (s : TLState) : TLState × Bool :=
  if s.last_trade_day ≠ some today then
    ({ s with daily_trade_count := 0, last_trade_day := some today }, true)
  else
    (s, false)

/-- One trade intent `(sell_coin, buy_coin, expected_return)` as appended to
the `trades` list of `decide_trades`. -/
abbrev Intent := String × String × ℚ

/-- Stable descending insertion of one scored coin, placing it before the
first entry with a score not above its own. -/
def insert_ranked (x : String × ℚ) : List (String × ℚ) → List (String × ℚ)
  | [] => [x]
  | y :: ys => if y.2 ≤ x.2 then x :: y :: ys else y :: insert_ranked x ys

/-- `sorted(performance_data.items(), key=score, reverse=True)`
(trade_logic.py lines 56-58): a stable descending sort by score. -/
def rank_coins : List (String × ℚ) → List (String × ℚ)
  | [] => []
  | x :: xs => insert_ranked x (rank_coins xs)

/-- `TradeLogic.decide_trades` (trade_logic.py lines 41-125).
The returned state is the instance state after the call (the daily reset ran);
`none` models an uncaught exception: the `IndexError` of `ranked_coins[0]` on
an empty ranking (line 69) or a `KeyError` from a holdings / performance
lookup.  `prices` is a parameter of the Python method but is never read. -/
def TradeLogic.decide_trades (cfg : Config) (fc : FeeCalculator) (today : ℕ)
    (s : TLState) (performance_data : List (String × ℚ))
    (prices : String → Option ℚ) : TLState × Option (List Intent) :=
  let s1 := (reset_daily_trade_count today s).1
  if cfg.max_trades_per_day ≤ s1.daily_trade_count then
    (s1, some [])
  else
    let ranked_coins := rank_coins performance_data
    let current_holdings :=
      s1.holdings.keys.filter
        (fun coin => coin ≠ cfg.base_currency ∧ 0 < s1.holdings.val coin)
    match ranked_coins with
    | [] => (s1, none)
    | top :: _ =>
      let top_coin := top.1
      match s1.holdings.get cfg.base_currency with
      | none => (s1, none)
      | some base_balance =>
        let after_buy : Option (List Intent) :=
          if cfg.trade_amount ≤ base_balance then
            match fc.calculate_fee_adjusted_return cfg.base_currency top_coin
                performance_data cfg.base_currency with
            | none => none
            | some expected_return =>
              some (if cfg.min_profit_threshold < expected_return then
                      [(cfg.base_currency, top_coin, expected_return)]
                    else [])
          else some []
        let after_sells : Option (List Intent) :=
          ranked_coins.reverse.foldl
            (fun (acc : Option (List Intent)) (cp : String × ℚ) =>
              match acc with
              | none => none
              | some trades =>
                if cp.1 ∈ current_holdings ∧ cp.2 < 0 then
                  match fc.calculate_fee_adjusted_return cp.1 cfg.base_currency
                      performance_data cfg.base_currency with
                  | none => none
                  | some expected_return =>
                    some (if -fc.standard_fee < expected_return then
                            trades ++ [(cp.1, cfg.base_currency, expected_return)]
                          else trades)
                else some trades)
            after_buy
        let after_rotations : Option (List Intent) :=
          current_holdings.foldl
            (fun (acc : Option (List Intent)) (coin : String) =>
              match acc with
              | none => none
              | some trades =>
                if coin ≠ top_coin then
                  match fc.calculate_fee_adjusted_return coin top_coin
                      performance_data cfg.base_currency with
                  | none => none
                  | some expected_return =>
                    some (if cfg.min_profit_threshold < expected_return then
                            trades ++ [(coin, top_coin, expected_return)]
                          else trades)
                else some trades)
            after_sells
        (s1, after_rotations)

/-- The branch of `execute_trade` for `sell_coin == self.base_currency`
(trade_logic.py lines 140-184): buy a crypto with base currency.
`exchange_buy` stands for `self.exchange.execute_buy` as callable from
`trade_logic` (coin and amount arguments only, exactly as at line 157). -/
def TradeLogic.execute_buy_branch (cfg : Config) (fc : FeeCalculator)
    (exchange_buy : String → ℚ → Option OrderOutcome) (s : TLState)
    (sell_coin buy_coin : String) (prices : String → Option ℚ)
    (expected_return : ℚ) (simulate : Bool) : Bool × ℚ × TLState :=
  match s.holdings.get cfg.base_currency with
  | none => (false, 0, s)          -- KeyError reading the base balance
  | some base_balance =>
    let trade_amount := min base_balance cfg.trade_amount
    if trade_amount ≤ 0 then (false, 0, s)
    else
      let fee_amount := fc.calculate_buy_fee trade_amount
      let effective_amount := trade_amount - fee_amount
      match prices buy_coin with
      | none => (false, 0, s)      -- KeyError on prices[buy_coin]
      | some p =>
        if p = 0 then (false, 0, s)  -- ZeroDivisionError at line 150
        else
          let crypto_amount := effective_amount / p
          -- lines 156-160: only a non-simulated run consults the exchange
          if simulate = false ∧ exchange_buy buy_coin crypto_amount = none then
            (false, 0, s)
          else
            let h1 := s.holdings.set cfg.base_currency (base_balance - trade_amount)
            match h1.get buy_coin with
            | none =>
              -- KeyError on holdings[buy_coin] += ...; the base debit persists
              (false, 0, { s with holdings := h1 })
            | some cur =>
              (true, fee_amount,
               { s with
                 holdings := h1.set buy_coin (cur + crypto_amount),
                 total_fees_paid := s.total_fees_paid + fee_amount,
                 trades_executed := s.trades_executed + 1,
                 daily_trade_count := s.daily_trade_count + 1,
                 history := s.history ++
                   [⟨"buy", sell_coin, buy_coin, expected_return, fee_amount, simulate⟩] })

/-- The branch of `execute_trade` for `buy_coin == self.base_currency`
(trade_logic.py lines 186-230): sell a crypto for base currency. -/
def TradeLogic.execute_sell_branch (cfg : Config) (fc : FeeCalculator)
    (exchange_sell : String → ℚ → Option OrderOutcome) (s : TLState)
    (sell_coin buy_coin : String) (prices : String → Option ℚ)
    (expected_return : ℚ) (simulate : Bool) : Bool × ℚ × TLState :=
  match s.holdings.get sell_coin with
  | none => (false, 0, s)          -- KeyError reading holdings[sell_coin]
  | some amount_to_trade =>
    if amount_to_trade ≤ 0 then (false, 0, s)
    else
      match prices sell_coin with
      | none => (false, 0, s)      -- KeyError on prices[sell_coin]
      | some p =>
        let base_amount := amount_to_trade * p
        let fee_amount := fc.calculate_sell_fee base_amount
        let net_base_amount := base_amount - fee_amount
        if simulate = false ∧ exchange_sell sell_coin amount_to_trade = none then
          (false, 0, s)
        else
          match s.holdings.get cfg.base_currency with
          | none => (false, 0, s)  -- KeyError on holdings[base] += ...
          | some base_balance =>
            let h1 := s.holdings.set cfg.base_currency (base_balance + net_base_amount)
            (true, fee_amount,
             { s with
               holdings := h1.set sell_coin 0,
               total_fees_paid := s.total_fees_paid + fee_amount,
               trades_executed := s.trades_executed + 1,
               daily_trade_count := s.daily_trade_count + 1,
               history := s.history ++
                 [⟨"sell", sell_coin, buy_coin, expected_return, fee_amount, simulate⟩] })

/-- The branch of `execute_trade` for a crypto-to-crypto rotation
(trade_logic.py lines 232-293). -/
def TradeLogic.execute_rotation_branch (cfg : Config) (fc : FeeCalculator)
    (exchange_buy exchange_sell : String → ℚ → Option OrderOutcome) (s : TLState)
    (sell_coin buy_coin : String) (prices : String → Option ℚ)
    (expected_return : ℚ) (simulate : Bool) : Bool × ℚ × TLState :=
  match s.holdings.get sell_coin with
  | none => (false, 0, s)          -- KeyError reading holdings[sell_coin]
  | some amount_to_trade =>
    if amount_to_trade ≤ 0 then (false, 0, s)
    else
      match prices sell_coin with
      | none => (false, 0, s)      -- KeyError on prices[sell_coin] at line 241
      | some ps =>
        let base_amount := amount_to_trade * ps
        let sell_fee := fc.calculate_sell_fee base_amount
        let net_base_amount := base_amount - sell_fee
        let buy_fee := fc.calculate_buy_fee net_base_amount
        match prices buy_coin with
        | none => (false, 0, s)    -- KeyError on prices[buy_coin] at line 248
        | some pb =>
          if pb = 0 then (false, 0, s)  -- ZeroDivisionError at line 248
          else
            let net_buy_amount := net_base_amount - buy_fee
            let buy_amount := net_buy_amount / pb
            let total_fee := sell_fee + buy_fee
            -- line 253 logs total_fee/base_amount: ZeroDivisionError if 0
            if base_amount = 0 then (false, 0, s)
            else
              if simulate = false ∧ exchange_sell sell_coin amount_to_trade = none then
                (false, 0, s)      -- sell leg of the rotation failed
              else if simulate = false ∧ exchange_buy buy_coin buy_amount = none then
                (false, sell_fee, s)  -- buy leg failed: line 267 returns sell_fee
              else
                let h1 := s.holdings.set sell_coin 0
                match h1.get buy_coin with
                | none =>
                  -- KeyError on holdings[buy_coin] += ...; sell zeroing persists
                  (false, 0, { s with holdings := h1 })
                | some cur =>
                  (true, total_fee,
                   { s with
                     holdings := h1.set buy_coin (cur + buy_amount),
                     total_fees_paid := s.total_fees_paid + total_fee,
                     trades_executed := s.trades_executed + 1,
                     daily_trade_count := s.daily_trade_count + 1,
                     history := s.history ++
                       [⟨"rotation", sell_coin, buy_coin, expected_return, total_fee,
                         simulate⟩] })

/-- `TradeLogic.execute_trade` (trade_logic.py lines 127-297): dispatch over
the three branches.  Returns `(success, fee_paid, state after the call)`;
on failure the Python method returns `(False, fee, None)` and the returned
state records whatever mutations already happened. -/
def TradeLogic.execute_trade (cfg : Config) (fc : FeeCalculator)
    (exchange_buy exchange_sell : String → ℚ → Option OrderOutcome) (s : TLState)
    (sell_coin buy_coin : String) (prices : String → Option ℚ)
    (expected_return : ℚ) (simulate : Bool) : Bool × ℚ × TLState :=
  if sell_coin = cfg.base_currency then
    TradeLogic.execute_buy_branch cfg fc exchange_buy s sell_coin buy_coin prices
      expected_return simulate
  else if buy_coin = cfg.base_currency then
    TradeLogic.execute_sell_branch cfg fc exchange_sell s sell_coin buy_coin prices
      expected_return simulate
  else
    TradeLogic.execute_rotation_branch cfg fc exchange_buy exchange_sell s sell_coin
      buy_coin prices expected_return simulate

/-- `TradeLogic.calculate_portfolio_value` (trade_logic.py lines 299-312):
base balance plus, for every other held coin present in `prices`,
balance times price. -/
def calculate_portfolio_value (base_currency : String) (holdings : Dict)
    (prices : String → Option ℚ) : ℚ :=
  (holdings.get base_currency).getD 0 +
    (holdings.keys.map (fun coin =>
      if coin = base_currency then 0
      else
        match prices coin with
        | some p => holdings.val coin * p
        | none => 0)).sum

/-- The trade-execution loop of `run_trading_cycle` (trade_logic.py lines
334-342): execute each intent in order, keeping the state across failures. -/
def run_trades (cfg : Config) (fc : FeeCalculator)
    (exchange_buy exchange_sell : String → ℚ → Option OrderOutcome)
    (prices : String → Option ℚ) (simulate : Bool) (s : TLState)
    (trades : List Intent) : TLState :=
  trades.foldl
    (fun st t =>
      (TradeLogic.execute_trade cfg fc exchange_buy exchange_sell st t.1 t.2.1 prices
        t.2.2 simulate).2.2)
    s

/-! RSI computation of `PerformanceCalculator.calculate_performance`
(performance.py lines 41-45):

```
delta = close.diff()
gain = delta.where(delta > 0, 0).rolling(window=14).mean()
loss = -delta.where(delta < 0, 0).rolling(window=14).mean()
rs = gain / loss
rsi = 100 - (100 / (1 + rs)).fillna(50).iloc[-1]
```

`diff()` puts `NaN` at position 0; `.where(delta > 0, 0)` replaces it (and
every non-positive delta) by 0, so the masked series is `0 ::` the masked
deltas.  `rolling(14).mean()` is `NaN` until 14 observations are available.
Only the last element is consumed (`iloc[-1]`).  The IEEE special values are
tracked by `FloatVal`: `gain/loss` at `loss = 0` is `NaN` when `gain = 0`
(0/0) and `+inf` when `gain > 0` (the masked gains are non-negative);
`100/(1+inf) = 0`; `fillna(50)` replaces only `NaN`. -/

/-- A pandas float64 cell: finite, `+inf`, or `NaN` (as reachable here). -/
inductive FloatVal
  | fin (q : ℚ)
  | inf
  | nan
deriving DecidableEq

/-- The close-to-close deltas of `close.diff()` without the leading `NaN`. -/
def close_diffs (closes : List ℚ) : List ℚ :=
  List.zipWith (fun a b => b - a) closes closes.tail

/-- `delta.where(delta > 0, 0)` as a series: the leading `NaN` becomes 0. -/
def masked_gains (closes : List ℚ) : List ℚ :=
  0 :: (close_diffs closes).map (fun d => if 0 < d then d else 0)

/-- `-delta.where(delta < 0, 0)` as a series: the leading `NaN` becomes 0. -/
def masked_losses (closes : List ℚ) : List ℚ :=
  0 :: (close_diffs closes).map (fun d => if d < 0 then -d else 0)

/-- Last element of `series.rolling(window=w).mean()`:
`none` (`NaN`) when fewer than `w` observations exist. -/
def rolling_mean_last (w : ℕ) (xs : List ℚ) : Option ℚ :=
  if w ≤ xs.length then some ((xs.drop (xs.length - w)).sum / (w : ℚ)) else none

/-- Last element of `rs = gain / loss` with IEEE division semantics
(gains and losses are non-negative, so `g / 0` with `g ≠ 0` is `+inf`). -/
def rs_last (closes : List ℚ) : FloatVal :=
  match rolling_mean_last 14 (masked_gains closes),
        rolling_mean_last 14 (masked_losses closes) with
  | some g, some l =>
    if l = 0 then (if g = 0 then FloatVal.nan else FloatVal.inf)
    else FloatVal.fin (g / l)
  | _, _ => FloatVal.nan

/-- `rsi = 100 - (100 / (1 + rs)).fillna(50).iloc[-1]`. -/
def rsi_last (closes : List ℚ) : ℚ :=
  100 -
    (match rs_last closes with
     | FloatVal.nan => 50            -- fillna(50)
     | FloatVal.inf => 0             -- 100 / (1 + inf) = 0
     | FloatVal.fin q => 100 / (1 + q))

/-! Concrete inputs used by the witnesses and counterexamples. -/

/-- Example configuration (values from config.py, with
`max_trades_per_day := 2` so the limit-overshoot scenario is small). -/
def exCfg : Config :=
  { base_currency := "USDT", trade_amount := 100,
    min_profit_threshold := 1/200, max_trades_per_day := 2 }

/-- Example fee structure: taker fee 0.1%, no discount, so
`standard_fee = 1/1000`. -/
def exFc : FeeCalculator :=
  { maker_fee := 8/10000, taker_fee := 1/1000, fee_discount := 0 }

/-- Holdings: 100 USDT, 1 ETH, 0 BTC. -/
def exHoldings : Dict :=
  ⟨["USDT", "BTC", "ETH"], fun c => if c = "USDT" then 100 else if c = "ETH" then 1 else 0⟩

/-- Example state: one trade already counted today (day 0). -/
def exState : TLState :=
  { holdings := exHoldings, total_fees_paid := 0, trades_executed := 0,
    daily_trade_count := 1, last_trade_day := some 0, history := [] }

/-- Prices: BTC at 10, ETH at 2 (in base currency). -/
def exPrices : String → Option ℚ :=
  fun c => if c = "BTC" then some 10 else if c = "ETH" then some 2 else none

/-- Performance scores: BTC +3, ETH −5. -/
def exPerf : List (String × ℚ) := [("BTC", 3), ("ETH", -5)]

/-- The three intents `decide_trades` emits from `exState` / `exPerf`:
accumulation, liquidation, rotation. -/
def exTrades : List Intent :=
  [("USDT", "BTC", 29/1000), ("ETH", "USDT", 49/1000), ("ETH", "BTC", 39/500)]

/-- An order collaborator that always reports success with a simulated order. -/
def exOrderSim : String → ℚ → Option OrderOutcome :=
  fun _ _ => some OrderOutcome.simulation

/-- A buy collaborator whose every call fails (returns `None`). -/
def exBuyFail : String → ℚ → Option OrderOutcome := fun _ _ => none

/-- A sell collaborator whose every call succeeds with a real order. -/
def exSellReal : String → ℚ → Option OrderOutcome :=
  fun _ _ => some OrderOutcome.real

/-- A ccxt order oracle on which every real order attempt fails. -/
def exRealOrderFail : String → ℚ → Option Unit := fun _ _ => none

/-- `self.exchange.execute_buy(buy_coin, crypto_amount)` exactly as called at
trade_logic.py line 157: the `simulate` argument is omitted, so the Python
default `True` applies, here with an exchange whose real orders always fail. -/
def exExchBuyAsCalled : String → ℚ → Option OrderOutcome :=
  fun coin amount => ExchangeHandler.execute_buy exRealOrderFail coin amount true

/-- `self.exchange.execute_sell(sell_coin, amount_to_trade)` exactly as called
at trade_logic.py lines 203 and 258: the `simulate` argument is omitted. -/
def exExchSellAsCalled : String → ℚ → Option OrderOutcome :=
  fun coin amount => ExchangeHandler.execute_sell exRealOrderFail coin amount true

/-- State whose holdings dict lacks the key "BTC": used to exhibit the
partial-mutation-on-fault behaviour of the buy branch. -/
def exStateNoBTC : TLState :=
  { holdings := ⟨["USDT"], fun c => if c = "USDT" then 100 else 0⟩,
    total_fees_paid := 0, trades_executed := 0, daily_trade_count := 0,
    last_trade_day := some 0, history := [] }

/-- State at the daily trade limit of `exCfg`. -/
def exStateAtLimit : TLState :=
  { exState with daily_trade_count := 2 }

/-- Strictly increasing closes 1, 2, ..., 15: no losses, all gains. -/
def exClosesUp : List ℚ :=
  [1, 2, 3, 4, 5, 6, 7, 8, 9, 10, 11, 12, 13, 14, 15]

/-- Constant closes: no losses and no gains in the RSI window. -/
def exClosesFlat : List ℚ := List.replicate 15 3

/-! Helper lemmas about `Dict` and the portfolio value. -/

theorem Dict.val_set (h : Dict) (k : String) (v : ℚ) (c : String) :
    (h.set k v).val c = if c = k then v else h.val c := rfl

theorem Dict.keys_set_of_mem (h : Dict) (k : String) (v : ℚ) (hk : k ∈ h.keys) :
    (h.set k v).keys = h.keys := by
  simp [Dict.set, hk]

theorem Dict.get_eq_some (h : Dict) {k : String} {q : ℚ}
    (hget : h.get k = some q) : k ∈ h.keys ∧ h.val k = q := by
  unfold Dict.get at hget
  split at hget <;> simp_all

theorem Dict.get_set (h : Dict) (k : String) (v : ℚ) (c : String) (hk : k ∈ h.keys) :
    (h.set k v).get c = if c = k then some v else h.get c := by
  unfold Dict.get
  rw [Dict.keys_set_of_mem h k v hk]
  by_cases hck : c = k
  · subst hck
    simp [hk, Dict.val_set]
  · simp [Dict.val_set, hck]

/-- Replacing the value of one key of a duplicate-free list changes a mapped
sum by the difference of the contribution of that key. -/
theorem list_map_sum_update (l : List String) (hnd : l.Nodup) (k : String)
    (hk : k ∈ l) (f g : String → ℚ) (hfg : ∀ c, c ≠ k → f c = g c) :
    (l.map g).sum = (l.map f).sum + (g k - f k) := by
  induction l with
  | nil => cases hk
  | cons a t ih =>
    rcases List.mem_cons.mp hk with rfl | hkt
    · have hnotin : k ∉ t := (List.nodup_cons.mp hnd).1
      have hmaps : t.map g = t.map f := by
        apply List.map_congr_left
        intro c hc
        exact (hfg c (fun hca => hnotin (hca ▸ hc))).symm
      simp [hmaps]
      ring
    · have hak : a ≠ k := by
        rintro rfl
        exact (List.nodup_cons.mp hnd).1 hkt
      have := ih (List.nodup_cons.mp hnd).2 hkt
      simp [this, hfg a hak]
      ring

/-- Effect of one dict write on the portfolio value: it changes by the value
delta weighted by 1 for the base currency and by the (defaulted) price
otherwise. -/
theorem portfolio_value_set (base : String) (h : Dict) (prices : String → Option ℚ)
    (k : String) (v : ℚ) (hnd : h.keys.Nodup) (hk : k ∈ h.keys) :
    calculate_portfolio_value base (h.set k v) prices =
      calculate_portfolio_value base h prices +
        (v - h.val k) * (if k = base then 1 else (prices k).getD 0) := by
  unfold calculate_portfolio_value
  rw [Dict.keys_set_of_mem h k v hk]
  by_cases hkb : k = base
  · subst hkb
    have hget : (h.set k v).get k = some v := by
      rw [Dict.get_set h k v k hk]; simp
    have hgetold : h.get k = some (h.val k) := by
      unfold Dict.get; simp [hk]
    have hmaps : h.keys.map (fun coin =>
        if coin = k then 0
        else match prices coin with
          | some p => (h.set k v).val coin * p
          | none => 0) =
        h.keys.map (fun coin =>
        if coin = k then 0
        else match prices coin with
          | some p => h.val coin * p
          | none => 0) := by
      apply List.map_congr_left
      intro c _
      by_cases hck : c = k
      · simp [hck]
      · simp [hck, Dict.val_set]
    rw [hget, hgetold, hmaps]
    simp only [Option.getD_some, eq_self_iff_true, if_true]
    ring
  · have hbk : ¬ base = k := fun hbk => hkb hbk.symm
    have hgetb : (h.set k v).get base = h.get base := by
      rw [Dict.get_set h k v base hk, if_neg hbk]
    rw [hgetb]
    have hsum := list_map_sum_update h.keys hnd k hk
      (fun coin =>
        if coin = base then 0
        else match prices coin with
          | some p => h.val coin * p
          | none => 0)
      (fun coin =>
        if coin = base then 0
        else match prices coin with
          | some p => (h.set k v).val coin * p
          | none => 0)
      (by
        intro c hck
        by_cases hcb : c = base
        · simp [hcb]
        · simp [hcb, Dict.val_set, hck])
    rw [hsum]
    have hkval : (h.set k v).val k = v := by simp [Dict.val_set]
    simp only [if_neg hkb, hkval]
    cases hp : prices k with
    | none => simp [hp]; try ring
    | some p => simp [hp]; try ring

/-! Claim theorems and their witnesses. -/

/-- Claim C2: for distinct assets both present in the performance mapping,
`calculate_fee_adjusted_return` returns `expected_return - fee_impact` with
the three-branch shape described in the specification: buying from base uses
`score(to)/100` and one fee, selling to base credits only a negative
`score(from)` and one fee, and a rotation uses the score difference and two
fees. -/
theorem claim_c2_fee_adjusted_return (fc : FeeCalculator)
    (from_coin to_coin base_currency : String)
    (performance_data : List (String × ℚ)) (sf st : ℚ)
    (hne : from_coin ≠ to_coin)
    (hf : performance_data.lookup from_coin = some sf)
    (ht : performance_data.lookup to_coin = some st) :
    fc.calculate_fee_adjusted_return from_coin to_coin performance_data base_currency =
      some ((if from_coin = base_currency then st / 100
             else if to_coin = base_currency then (if sf < 0 then -sf / 100 else 0)
             else (st - sf) / 100) -
            (if from_coin = base_currency ∨ to_coin = base_currency then
               fc.standard_fee
             else 2 * fc.standard_fee)) := by
  unfold FeeCalculator.calculate_fee_adjusted_return
  by_cases h1 : from_coin = base_currency
  · simp [h1, ht]
  · by_cases h2 : to_coin = base_currency
    · simp [h1, h2, hf]
    · simp [h1, h2, hf, ht]
      ring

/-- Witness for C2 at the rotation case (ETH → BTC, base USDT). -/
theorem claim_c2_witness :
    ("ETH" : String) ≠ "BTC" ∧
    exPerf.lookup "ETH" = some (-5) ∧
    exPerf.lookup "BTC" = some 3 ∧
    exFc.calculate_fee_adjusted_return "ETH" "BTC" exPerf "USDT" =
      some ((if ("ETH" : String) = "USDT" then (3 : ℚ) / 100
             else if ("BTC" : String) = "USDT" then (if (-5 : ℚ) < 0 then -(-5 : ℚ) / 100 else 0)
             else ((3 : ℚ) - (-5)) / 100) -
            (if ("ETH" : String) = "USDT" ∨ ("BTC" : String) = "USDT" then
               exFc.standard_fee
             else 2 * exFc.standard_fee)) :=
  ⟨by decide, by decide, by decide,
   claim_c2_fee_adjusted_return exFc "ETH" "BTC" "USDT" exPerf (-5) 3
     (by decide) (by decide) (by decide)⟩

/-- Claim C3 (code bug): with the daily counter below the maximum and an
empty performance mapping, `decide_trades` does not return an empty list:
it evaluates `ranked_coins[0]` on the empty ranking, raising an uncaught
`IndexError` (modelled as `none`). -/
theorem claim_c3_empty_performance_crash :
    exStateNoBTC.daily_trade_count < exCfg.max_trades_per_day ∧
    (TradeLogic.decide_trades exCfg exFc 0 exStateNoBTC [] exPrices).2 = none :=
  ⟨by decide, rfl⟩

/-- Claim C6: whenever the daily trade counter after the daily reset step has
reached the configured maximum, `decide_trades` returns the empty intent
list, whatever the performance data, holdings and prices are. -/
theorem claim_c6_daily_limit (cfg : Config) (fc : FeeCalculator) (today : ℕ)
    (s : TLState) (performance_data : List (String × ℚ))
    (prices : String → Option ℚ)
    (h : cfg.max_trades_per_day ≤ ((reset_daily_trade_count today s).1).daily_trade_count) :
    TradeLogic.decide_trades cfg fc today s performance_data prices =
      ((reset_daily_trade_count today s).1, some []) := by
  unfold TradeLogic.decide_trades
  simp [h]

/-- Witness for C6: a state at the limit with profitable opportunities. -/
theorem claim_c6_witness :
    exCfg.max_trades_per_day ≤
      ((reset_daily_trade_count 0 exStateAtLimit).1).daily_trade_count ∧
    TradeLogic.decide_trades exCfg exFc 0 exStateAtLimit exPerf exPrices =
      ((reset_daily_trade_count 0 exStateAtLimit).1, some []) :=
  ⟨by decide,
   claim_c6_daily_limit exCfg exFc 0 exStateAtLimit exPerf exPrices (by decide)⟩

/-- Claim C7: `reset_daily_trade_count` zeroes the counter exactly once per
calendar date: on a date differing from the stored one it zeroes the counter
and stores the date, and on a state already stamped with the current date it is
the identity, so repeating it on the same date changes nothing. -/
theorem claim_c7_daily_reset (d : ℕ) (s : TLState) :
    (reset_daily_trade_count d s).1 =
      (if s.last_trade_day = some d then s
       else { s with daily_trade_count := 0, last_trade_day := some d }) ∧
    (reset_daily_trade_count d ((reset_daily_trade_count d s).1)).1 =
      (reset_daily_trade_count d s).1 := by
  unfold reset_daily_trade_count
  by_cases h : s.last_trade_day = some d <;> simp [h]

/-- The masked-delta series summed over the trailing 14-window is zero when
every delta in that window is zero (the mask sends 0 to 0). -/
theorem masked_window_sum_zero (closes : List ℚ) (f : ℚ → ℚ) (hf0 : f 0 = 0)
    (hwin : 14 ≤ (close_diffs closes).length)
    (hzero : ∀ d ∈ (close_diffs closes).drop ((close_diffs closes).length - 14), d = 0) :
    ((0 :: (close_diffs closes).map f).drop
      ((0 :: (close_diffs closes).map f).length - 14)).sum = 0 := by
  have hlen' : (0 :: (close_diffs closes).map f).length - 14 =
      ((close_diffs closes).length - 14) + 1 := by
    simp only [List.length_cons, List.length_map]
    omega
  rw [hlen', List.drop_succ_cons, ← List.map_drop]
  apply List.sum_eq_zero
  intro x hx
  obtain ⟨d, hd, rfl⟩ := List.mem_map.mp hx
  rw [hzero d hd, hf0]

/-- Claim C4 counterexample: strictly rising closes of length 15 have no
negative delta in the RSI window, yet the computed rsi is 100, not 50
(`rs` becomes `+inf`, and `fillna(50)` only replaces `NaN`). -/
theorem claim_c4_counterexample :
    exClosesUp.length = 15 ∧
    (∀ d ∈ close_diffs exClosesUp, ¬ d < 0) ∧
    rsi_last exClosesUp = 100 ∧ rsi_last exClosesUp ≠ 50 := by
  refine ⟨by decide, ?_, ?_, ?_⟩ <;>
    norm_num [rsi_last, rs_last, rolling_mean_last, masked_gains, masked_losses,
      close_diffs, exClosesUp]

/-- Claim C4 as amended: for windows of length ≥ 15 whose trailing 14 deltas
show no losses **and no gains** (all deltas zero), the rsi is 50: `rs` is the
`NaN` of 0/0 and the `fillna(50)` fallback applies. -/
theorem claim_c4_amended (closes : List ℚ) (hlen : 15 ≤ closes.length)
    (hzero : ∀ d ∈ (close_diffs closes).drop ((close_diffs closes).length - 14), d = 0) :
    rsi_last closes = 50 := by
  have hdl : (close_diffs closes).length = closes.length - 1 := by
    unfold close_diffs
    rw [List.length_zipWith (fun a b => b - a) closes closes.tail, List.length_tail]
    omega
  have hwin : 14 ≤ (close_diffs closes).length := by omega
  have hg : rolling_mean_last 14 (masked_gains closes) = some 0 := by
    unfold rolling_mean_last masked_gains
    rw [if_pos (by simp only [List.length_cons, List.length_map]; omega)]
    rw [masked_window_sum_zero closes (fun d => if 0 < d then d else 0) (by norm_num)
      hwin hzero]
    norm_num
  have hl : rolling_mean_last 14 (masked_losses closes) = some 0 := by
    unfold rolling_mean_last masked_losses
    rw [if_pos (by simp only [List.length_cons, List.length_map]; omega)]
    rw [masked_window_sum_zero closes (fun d => if d < 0 then -d else 0) (by norm_num)
      hwin hzero]
    norm_num
  unfold rsi_last rs_last
  rw [hg, hl]
  norm_num

/-- Witness for the amended C4 at a constant 15-sample window. -/
theorem claim_c4_witness :
    15 ≤ exClosesFlat.length ∧ rsi_last exClosesFlat = 50 :=
  ⟨by decide,
   claim_c4_amended exClosesFlat (by decide)
     (by norm_num [close_diffs, exClosesFlat, List.replicate_succ])⟩

/-- Characterization of a successful buy branch: the checks that must have
passed and the exact resulting state. -/
theorem execute_buy_branch_succ {cfg : Config} {fc : FeeCalculator}
    {eb : String → ℚ → Option OrderOutcome} {s : TLState} {sell buy : String}
    {prices : String → Option ℚ} {er : ℚ} {sim : Bool} {fee : ℚ} {s' : TLState}
    (h : TradeLogic.execute_buy_branch cfg fc eb s sell buy prices er sim =
      (true, fee, s')) :
    ∃ bal p cur,
      s.holdings.get cfg.base_currency = some bal ∧
      ¬ min bal cfg.trade_amount ≤ 0 ∧
      prices buy = some p ∧
      ¬ p = 0 ∧
      (s.holdings.set cfg.base_currency (bal - min bal cfg.trade_amount)).get buy =
        some cur ∧
      fee = fc.calculate_buy_fee (min bal cfg.trade_amount) ∧
      s' = { s with
             holdings :=
               (s.holdings.set cfg.base_currency (bal - min bal cfg.trade_amount)).set
                 buy (cur + (min bal cfg.trade_amount -
                   fc.calculate_buy_fee (min bal cfg.trade_amount)) / p),
             total_fees_paid := s.total_fees_paid + fee,
             trades_executed := s.trades_executed + 1,
             daily_trade_count := s.daily_trade_count + 1,
             history := s.history ++ [⟨"buy", sell, buy, er, fee, sim⟩] } := by
  simp only [TradeLogic.execute_buy_branch] at h
  split at h
  · simp at h
  rename_i bal hbal
  split at h
  · simp at h
  rename_i hamt
  split at h
  · simp at h
  rename_i p hp
  split at h
  · simp at h
  rename_i hp0
  split at h
  · simp at h
  split at h
  · simp at h
  rename_i cur hcur
  simp only [Prod.mk.injEq, true_and] at h
  obtain ⟨hfee, hs'⟩ := h
  subst hfee
  exact ⟨bal, p, cur, hbal, hamt, hp, hp0, hcur, rfl, hs'.symm⟩

/-- Characterization of a successful sell branch. -/
theorem execute_sell_branch_succ {cfg : Config} {fc : FeeCalculator}
    {es : String → ℚ → Option OrderOutcome} {s : TLState} {sell buy : String}
    {prices : String → Option ℚ} {er : ℚ} {sim : Bool} {fee : ℚ} {s' : TLState}
    (h : TradeLogic.execute_sell_branch cfg fc es s sell buy prices er sim =
      (true, fee, s')) :
    ∃ a p bal,
      s.holdings.get sell = some a ∧
      ¬ a ≤ 0 ∧
      prices sell = some p ∧
      s.holdings.get cfg.base_currency = some bal ∧
      fee = fc.calculate_sell_fee (a * p) ∧
      s' = { s with
             holdings :=
               (s.holdings.set cfg.base_currency
                 (bal + (a * p - fc.calculate_sell_fee (a * p)))).set sell 0,
             total_fees_paid := s.total_fees_paid + fee,
             trades_executed := s.trades_executed + 1,
             daily_trade_count := s.daily_trade_count + 1,
             history := s.history ++ [⟨"sell", sell, buy, er, fee, sim⟩] } := by
  simp only [TradeLogic.execute_sell_branch] at h
  split at h
  · simp at h
  rename_i a ha
  split at h
  · simp at h
  rename_i hamt
  split at h
  · simp at h
  rename_i p hp
  split at h
  · simp at h
  split at h
  · simp at h
  rename_i bal hbal
  simp only [Prod.mk.injEq, true_and] at h
  obtain ⟨hfee, hs'⟩ := h
  subst hfee
  exact ⟨a, p, bal, ha, hamt, hp, hbal, rfl, hs'.symm⟩

/-- Characterization of a successful rotation branch. -/
theorem execute_rotation_branch_succ {cfg : Config} {fc : FeeCalculator}
    {eb es : String → ℚ → Option OrderOutcome} {s : TLState} {sell buy : String}
    {prices : String → Option ℚ} {er : ℚ} {sim : Bool} {fee : ℚ} {s' : TLState}
    (h : TradeLogic.execute_rotation_branch cfg fc eb es s sell buy prices er sim =
      (true, fee, s')) :
    ∃ a ps pb cur,
      s.holdings.get sell = some a ∧
      ¬ a ≤ 0 ∧
      prices sell = some ps ∧
      prices buy = some pb ∧
      ¬ pb = 0 ∧
      ¬ a * ps = 0 ∧
      (s.holdings.set sell 0).get buy = some cur ∧
      fee = fc.calculate_sell_fee (a * ps) +
        fc.calculate_buy_fee (a * ps - fc.calculate_sell_fee (a * ps)) ∧
      s' = { s with
             holdings :=
               (s.holdings.set sell 0).set buy
                 (cur + (a * ps - fc.calculate_sell_fee (a * ps) -
                   fc.calculate_buy_fee (a * ps - fc.calculate_sell_fee (a * ps))) / pb),
             total_fees_paid := s.total_fees_paid + fee,
             trades_executed := s.trades_executed + 1,
             daily_trade_count := s.daily_trade_count + 1,
             history := s.history ++ [⟨"rotation", sell, buy, er, fee, sim⟩] } := by
  simp only [TradeLogic.execute_rotation_branch] at h
  split at h
  · simp at h
  rename_i a ha
  split at h
  · simp at h
  rename_i hamt
  split at h
  · simp at h
  rename_i ps hps
  split at h
  · simp at h
  rename_i pb hpb
  split at h
  · simp at h
  rename_i hpb0
  split at h
  · simp at h
  rename_i hbase0
  split at h
  · simp at h
  split at h
  · simp at h
  split at h
  · simp at h
  rename_i cur hcur
  simp only [Prod.mk.injEq, true_and] at h
  obtain ⟨hfee, hs'⟩ := h
  subst hfee
  exact ⟨a, ps, pb, cur, ha, hamt, hps, hpb, hpb0, hbase0, hcur, rfl, hs'.symm⟩

/-- Every failure result of `execute_trade` leaves the cumulative stats
(total fees paid, executed-trade counter, daily counter) untouched. -/
theorem execute_trade_failure_stats {cfg : Config} {fc : FeeCalculator}
    {eb es : String → ℚ → Option OrderOutcome} {s : TLState} {sell buy : String}
    {prices : String → Option ℚ} {er : ℚ} {sim : Bool} {fee : ℚ} {s' : TLState}
    (h : TradeLogic.execute_trade cfg fc eb es s sell buy prices er sim =
      (false, fee, s')) :
    s'.total_fees_paid = s.total_fees_paid ∧
      s'.trades_executed = s.trades_executed ∧
      s'.daily_trade_count = s.daily_trade_count := by
  unfold TradeLogic.execute_trade at h
  split at h
  · simp only [TradeLogic.execute_buy_branch] at h
    repeat' split at h
    all_goals
      first
      | (injection h with h1 h2
         injection h2 with h2a h2b
         subst h2b
         exact ⟨rfl, rfl, rfl⟩)
      | simp at h
  · split at h
    · simp only [TradeLogic.execute_sell_branch] at h
      repeat' split at h
      all_goals
        first
        | (injection h with h1 h2
           injection h2 with h2a h2b
           subst h2b
           exact ⟨rfl, rfl, rfl⟩)
        | simp at h
    · simp only [TradeLogic.execute_rotation_branch] at h
      repeat' split at h
      all_goals
        first
        | (injection h with h1 h2
           injection h2 with h2a h2b
           subst h2b
           exact ⟨rfl, rfl, rfl⟩)
        | simp at h

/-- Claim C9 as amended: an intent whose sized amount is not positive fails
with zero fee and a completely unmodified state, and every failure result
leaves the cumulative stats unmodified.  (The stronger original claim that
every fault leaves the ledger unmodified is refuted by
the counterexample: a fault hitting the holdings update itself keeps the
already-applied debit.) -/
theorem claim_c9_amended (cfg : Config) (fc : FeeCalculator)
    (eb es : String → ℚ → Option OrderOutcome) (s : TLState) (sell buy : String)
    (prices : String → Option ℚ) (er : ℚ) (sim : Bool) :
    ((sell = cfg.base_currency →
        min ((s.holdings.get cfg.base_currency).getD 0) cfg.trade_amount ≤ 0) →
     (sell ≠ cfg.base_currency → (s.holdings.get sell).getD 0 ≤ 0) →
     TradeLogic.execute_trade cfg fc eb es s sell buy prices er sim = (false, 0, s)) ∧
    (∀ (fee : ℚ) (s' : TLState),
      TradeLogic.execute_trade cfg fc eb es s sell buy prices er sim =
        (false, fee, s') →
      s'.total_fees_paid = s.total_fees_paid ∧
        s'.trades_executed = s.trades_executed ∧
        s'.daily_trade_count = s.daily_trade_count) := by
  constructor
  · intro hb hs
    unfold TradeLogic.execute_trade
    split
    · rename_i hsb
      have hb' := hb hsb
      simp only [TradeLogic.execute_buy_branch]
      split
      · rfl
      · rename_i bal hbal
        rw [hbal, Option.getD_some] at hb'
        rw [if_pos hb']
    · rename_i hsb
      have hs0 := hs hsb
      split
      · simp only [TradeLogic.execute_sell_branch]
        split
        · rfl
        · rename_i a ha
          rw [ha, Option.getD_some] at hs0
          rw [if_pos hs0]
      · simp only [TradeLogic.execute_rotation_branch]
        split
        · rfl
        · rename_i a ha
          rw [ha, Option.getD_some] at hs0
          rw [if_pos hs0]
  · intro fee s' h
    exact execute_trade_failure_stats h

/-- Claim C9 counterexample: a fault during the holdings update (buy asset
missing from the holdings dict while priced) yields a failure result whose
ledger IS modified — the base debit persists — refuting "the ledger is
unmodified for any failed branch". -/
theorem claim_c9_counterexample :
    (TradeLogic.execute_trade exCfg exFc exOrderSim exOrderSim exStateNoBTC "USDT" "BTC"
        exPrices (29/1000) true).1 = false ∧
    (TradeLogic.execute_trade exCfg exFc exOrderSim exOrderSim exStateNoBTC "USDT" "BTC"
        exPrices (29/1000) true).2.2.holdings.val "USDT" = 0 ∧
    exStateNoBTC.holdings.val "USDT" = 100 ∧
    (TradeLogic.execute_trade exCfg exFc exOrderSim exOrderSim exStateNoBTC "USDT" "BTC"
        exPrices (29/1000) true).2.2.holdings.val "USDT" ≠
      exStateNoBTC.holdings.val "USDT" := by
  norm_num [TradeLogic.execute_trade, TradeLogic.execute_buy_branch, Dict.get, Dict.set,
    exCfg, exFc, exStateNoBTC, exPrices, exOrderSim,
    FeeCalculator.calculate_buy_fee, FeeCalculator.standard_fee] <;> decide

/-- Witness for the amended C9: selling a zero balance fails with zero fee
and unchanged state and stats. -/
theorem claim_c9_witness :
    TradeLogic.execute_trade exCfg exFc exOrderSim exOrderSim exState "BTC" "ETH"
        exPrices 0 true = (false, 0, exState) ∧
    exState.total_fees_paid = exState.total_fees_paid ∧
    exState.trades_executed = exState.trades_executed ∧
    exState.daily_trade_count = exState.daily_trade_count := by
  have h := claim_c9_amended exCfg exFc exOrderSim exOrderSim exState "BTC" "ETH"
    exPrices 0 true
  have h1 := h.1 (fun hb => absurd hb (by decide))
    (fun _ => by simp [Dict.get, exState, exHoldings, exCfg])
  exact ⟨h1, h.2 0 exState h1⟩

set_option maxHeartbeats 2000000 in
/-- Claim C10: the daily limit is checked only in `decide_trades`; every
successful `execute_trade` increments the daily counter unconditionally, and
in the concrete scenario (counter at max−1, three profitable intents emitted)
the counter ends at 3, strictly above the maximum of 2. -/
theorem claim_c10_limit_overshoot :
    (∀ (cfg : Config) (fc : FeeCalculator)
       (eb es : String → ℚ → Option OrderOutcome) (s : TLState) (sell buy : String)
       (prices : String → Option ℚ) (er : ℚ) (sim : Bool) (fee : ℚ) (s' : TLState),
       TradeLogic.execute_trade cfg fc eb es s sell buy prices er sim =
         (true, fee, s') →
       s'.daily_trade_count = s.daily_trade_count + 1) ∧
    TradeLogic.decide_trades exCfg exFc 0 exState exPerf exPrices =
      (exState, some exTrades) ∧
    exState.daily_trade_count + 1 = exCfg.max_trades_per_day ∧
    (run_trades exCfg exFc exOrderSim exOrderSim exPrices true exState
      exTrades).daily_trade_count = 3 ∧
    exCfg.max_trades_per_day < 3 := by
  refine ⟨?_, ?_, by decide, ?_, by decide⟩
  · intro cfg fc eb es s sell buy prices er sim fee s' h
    unfold TradeLogic.execute_trade at h
    split at h
    · obtain ⟨_, _, _, _, _, _, _, _, _, hs'⟩ := execute_buy_branch_succ h
      subst hs'
      rfl
    · split at h
      · obtain ⟨_, _, _, _, _, _, _, _, hs'⟩ := execute_sell_branch_succ h
        subst hs'
        rfl
      · obtain ⟨_, _, _, _, _, _, _, _, _, _, _, _, hs'⟩ :=
          execute_rotation_branch_succ h
        subst hs'
        rfl
  · simp [TradeLogic.decide_trades, reset_daily_trade_count, rank_coins,
      insert_ranked, FeeCalculator.calculate_fee_adjusted_return,
      FeeCalculator.standard_fee, Dict.get, List.lookup, exCfg, exFc, exState,
      exHoldings, exPerf, exPrices, exTrades]
    norm_num
    simp [List.lookup]
    norm_num
  · simp [run_trades, exTrades, TradeLogic.execute_trade,
      TradeLogic.execute_buy_branch, TradeLogic.execute_sell_branch,
      TradeLogic.execute_rotation_branch, Dict.get, Dict.set, exCfg, exFc, exState,
      exHoldings, exPrices, exOrderSim, FeeCalculator.calculate_buy_fee,
      FeeCalculator.calculate_sell_fee, FeeCalculator.standard_fee]
    try norm_num
    try simp [Dict.get, Dict.set]
    try norm_num

/-- Claim C1: any successful `execute_trade` on distinct assets over a
duplicate-free holdings dict moves the portfolio value (prices held fixed,
base priced at 1) down by exactly the returned fee. -/
theorem claim_c1_value_conservation (cfg : Config) (fc : FeeCalculator)
    (eb es : String → ℚ → Option OrderOutcome) (s : TLState) (sell buy : String)
    (prices : String → Option ℚ) (er : ℚ) (sim : Bool) (fee : ℚ) (s' : TLState)
    (hnd : s.holdings.keys.Nodup) (hne : sell ≠ buy)
    (hex : TradeLogic.execute_trade cfg fc eb es s sell buy prices er sim =
      (true, fee, s')) :
    calculate_portfolio_value cfg.base_currency s'.holdings prices =
      calculate_portfolio_value cfg.base_currency s.holdings prices - fee := by
  unfold TradeLogic.execute_trade at hex
  split at hex
  · -- buy branch (sell_coin is the base currency)
    rename_i hsb
    obtain ⟨bal, p, cur, hbal, hamt, hp, hp0, hcur, hfee, hs'⟩ :=
      execute_buy_branch_succ hex
    obtain ⟨hbmem, hbval⟩ := Dict.get_eq_some _ hbal
    have hbuyb : buy ≠ cfg.base_currency := fun hb => hne (hsb.trans hb.symm)
    have hkeys1 :
        (s.holdings.set cfg.base_currency (bal - min bal cfg.trade_amount)).keys =
          s.holdings.keys := Dict.keys_set_of_mem _ _ _ hbmem
    obtain ⟨hbuymem1, hcurval⟩ := Dict.get_eq_some _ hcur
    subst hs'
    dsimp only
    rw [portfolio_value_set _ _ _ _ _ (by rw [hkeys1]; exact hnd) hbuymem1,
      portfolio_value_set _ _ _ _ _ hnd hbmem]
    rw [if_neg hbuyb, if_pos rfl, hp, hcurval, hbval]
    simp only [Option.getD_some]
    subst hfee
    unfold FeeCalculator.calculate_buy_fee
    have hp0' : p ≠ 0 := hp0
    field_simp
    ring
  · split at hex
    · -- sell branch (buy_coin is the base currency)
      rename_i hsb hbb
      obtain ⟨a, p, bal, ha, ha0, hp, hbal, hfee, hs'⟩ :=
        execute_sell_branch_succ hex
      obtain ⟨hsmem, hsval⟩ := Dict.get_eq_some _ ha
      obtain ⟨hbmem, hbval⟩ := Dict.get_eq_some _ hbal
      have hkeys1 :
          (s.holdings.set cfg.base_currency
            (bal + (a * p - fc.calculate_sell_fee (a * p)))).keys =
            s.holdings.keys := Dict.keys_set_of_mem _ _ _ hbmem
      subst hs'
      dsimp only
      rw [portfolio_value_set _ _ _ _ _ (by rw [hkeys1]; exact hnd)
          (by rw [hkeys1]; exact hsmem),
        portfolio_value_set _ _ _ _ _ hnd hbmem]
      rw [if_neg hsb, if_pos rfl, hp, Dict.val_set, if_neg hsb, hsval, hbval]
      simp only [Option.getD_some]
      subst hfee
      unfold FeeCalculator.calculate_sell_fee
      ring
    · -- rotation branch (neither asset is the base currency)
      rename_i hsb hbb
      obtain ⟨a, ps, pb, cur, ha, ha0, hps, hpb, hpb0, hbase0, hcur, hfee, hs'⟩ :=
        execute_rotation_branch_succ hex
      obtain ⟨hsmem, hsval⟩ := Dict.get_eq_some _ ha
      have hkeys1 : (s.holdings.set sell 0).keys = s.holdings.keys :=
        Dict.keys_set_of_mem _ _ _ hsmem
      obtain ⟨hbuymem1, hcurval⟩ := Dict.get_eq_some _ hcur
      subst hs'
      dsimp only
      rw [portfolio_value_set _ _ _ _ _ (by rw [hkeys1]; exact hnd) hbuymem1,
        portfolio_value_set _ _ _ _ _ hnd hsmem]
      rw [if_neg hbb, if_neg hsb, hps, hpb, hcurval, hsval]
      simp only [Option.getD_some]
      subst hfee
      unfold FeeCalculator.calculate_sell_fee FeeCalculator.calculate_buy_fee
      have hpb0' : pb ≠ 0 := hpb0
      field_simp
      ring

/-- The concrete buy (100 USDT → BTC at price 10, simulated) succeeds;
stated in the eta-expanded form used to instantiate general theorems. -/
theorem exBuySuccEq :
    TradeLogic.execute_trade exCfg exFc exOrderSim exOrderSim exState "USDT" "BTC"
        exPrices (29/1000) true =
      (true,
       (TradeLogic.execute_trade exCfg exFc exOrderSim exOrderSim exState "USDT" "BTC"
         exPrices (29/1000) true).2.1,
       (TradeLogic.execute_trade exCfg exFc exOrderSim exOrderSim exState "USDT" "BTC"
         exPrices (29/1000) true).2.2) := by
  have h1 : (TradeLogic.execute_trade exCfg exFc exOrderSim exOrderSim exState "USDT"
      "BTC" exPrices (29/1000) true).1 = true := by
    simp [TradeLogic.execute_trade, TradeLogic.execute_buy_branch, Dict.get, Dict.set,
      exCfg, exFc, exState, exHoldings, exPrices, exOrderSim,
      FeeCalculator.calculate_buy_fee, FeeCalculator.standard_fee]
    norm_num
  exact Prod.ext h1 rfl

/-- Witness for C1 at the concrete buy trade. -/
theorem claim_c1_witness :
    calculate_portfolio_value exCfg.base_currency
      (TradeLogic.execute_trade exCfg exFc exOrderSim exOrderSim exState "USDT" "BTC"
        exPrices (29/1000) true).2.2.holdings exPrices =
    calculate_portfolio_value exCfg.base_currency exState.holdings exPrices -
      (TradeLogic.execute_trade exCfg exFc exOrderSim exOrderSim exState "USDT" "BTC"
        exPrices (29/1000) true).2.1 :=
  claim_c1_value_conservation exCfg exFc exOrderSim exOrderSim exState "USDT" "BTC"
    exPrices (29/1000) true _ _ (by decide) (by decide) exBuySuccEq

/-- Witness for C10: the concrete successful buy bumps the daily counter by 1. -/
theorem claim_c10_witness :
    (TradeLogic.execute_trade exCfg exFc exOrderSim exOrderSim exState "USDT" "BTC"
        exPrices (29/1000) true).2.2.daily_trade_count =
      exState.daily_trade_count + 1 :=
  claim_c10_limit_overshoot.1 exCfg exFc exOrderSim exOrderSim exState "USDT" "BTC"
    exPrices (29/1000) true _ _ exBuySuccEq

/-- Claim C5 (code bug): `trade_logic` calls `exchange.execute_buy(coin, amt)`
and `exchange.execute_sell(coin, amt)` without forwarding its `simulate`
flag, so the `ExchangeHandler` default `simulate=True` applies: the order
functions, as called, always return the simulation stub and never consult the
real ccxt order call — and a non-simulated `execute_trade` therefore succeeds
even against an exchange on which every real order attempt fails, contradicting
"issues the corresponding real (non-simulated) exchange order(s); a None order
result makes the branch report failure". -/
theorem claim_c5_simulate_not_forwarded :
    (∀ (create_order : String → ℚ → Option Unit) (coin : String) (amount : ℚ),
      ExchangeHandler.execute_buy create_order coin amount true =
        some OrderOutcome.simulation ∧
      ExchangeHandler.execute_sell create_order coin amount true =
        some OrderOutcome.simulation) ∧
    (TradeLogic.execute_trade exCfg exFc exExchBuyAsCalled exExchSellAsCalled exState
      "USDT" "BTC" exPrices (29/1000) false).1 = true := by
  constructor
  · intro create_order coin amount
    constructor <;> rfl
  · simp [TradeLogic.execute_trade, TradeLogic.execute_buy_branch, Dict.get, Dict.set,
      exCfg, exFc, exState, exHoldings, exPrices, exExchBuyAsCalled,
      exExchSellAsCalled, ExchangeHandler.execute_buy, ExchangeHandler.execute_sell,
      exRealOrderFail, FeeCalculator.calculate_buy_fee, FeeCalculator.standard_fee]
    norm_num

/-- Claim C8 as amended: when the sell leg of a non-simulated rotation succeeds and
its buy leg fails, `execute_trade` reports failure carrying the sell-leg fee
and leaves the state entirely unmodified: the from-asset balance keeps its
pre-trade value (it is not set to 0) and no to-asset is acquired. -/
theorem claim_c8_amended (cfg : Config) (fc : FeeCalculator)
    (eb es : String → ℚ → Option OrderOutcome) (s : TLState) (sell buy : String)
    (prices : String → Option ℚ) (er : ℚ) (a ps pb : ℚ) (o : OrderOutcome)
    (hsb : sell ≠ cfg.base_currency) (hbb : buy ≠ cfg.base_currency)
    (ha : s.holdings.get sell = some a) (ha0 : ¬ a ≤ 0)
    (hps : prices sell = some ps) (hpb : prices buy = some pb) (hpb0 : ¬ pb = 0)
    (hbase0 : ¬ a * ps = 0)
    (hso : es sell a = some o)
    (hbo : eb buy ((a * ps - fc.calculate_sell_fee (a * ps) -
      fc.calculate_buy_fee (a * ps - fc.calculate_sell_fee (a * ps))) / pb) = none) :
    TradeLogic.execute_trade cfg fc eb es s sell buy prices er false =
      (false, fc.calculate_sell_fee (a * ps), s) := by
  unfold TradeLogic.execute_trade
  rw [if_neg hsb, if_neg hbb]
  simp [TradeLogic.execute_rotation_branch, ha, hps, hpb, hso, hbo, ha0, hpb0, hbase0]

/-- Claim C8 counterexample: the concrete failed rotation (ETH → BTC, sell leg
accepted, buy leg `None`, simulate=False) leaves the ETH balance at its
original value 1, not at 0 as the claim states. -/
theorem claim_c8_counterexample :
    (TradeLogic.execute_trade exCfg exFc exBuyFail exSellReal exState "ETH" "BTC"
        exPrices (39/500) false).1 = false ∧
    (TradeLogic.execute_trade exCfg exFc exBuyFail exSellReal exState "ETH" "BTC"
        exPrices (39/500) false).2.2.holdings.val "ETH" = 1 ∧
    ¬ (TradeLogic.execute_trade exCfg exFc exBuyFail exSellReal exState "ETH" "BTC"
        exPrices (39/500) false).2.2.holdings.val "ETH" = 0 := by
  simp [TradeLogic.execute_trade, TradeLogic.execute_rotation_branch, Dict.get,
    Dict.set, exCfg, exFc, exState, exHoldings, exPrices, exBuyFail, exSellReal,
    FeeCalculator.calculate_buy_fee, FeeCalculator.calculate_sell_fee,
    FeeCalculator.standard_fee]
  try norm_num
  try simp
  try norm_num

/-- Witness for the amended C8 at the concrete failed rotation. -/
theorem claim_c8_witness :
    TradeLogic.execute_trade exCfg exFc exBuyFail exSellReal exState "ETH" "BTC"
        exPrices (39/500) false =
      (false, exFc.calculate_sell_fee (1 * 2), exState) :=
  claim_c8_amended exCfg exFc exBuyFail exSellReal exState "ETH" "BTC" exPrices
    (39/500) 1 2 10 OrderOutcome.real (by decide) (by decide)
    (by simp [Dict.get, exState, exHoldings]) (by norm_num)
    (by simp [exPrices]) (by simp [exPrices]) (by norm_num) (by norm_num)
    (by simp [exSellReal]) (by simp [exBuyFail])
